import Mathlib

/-!
Verification of the `OTPTextInput` component of `@sectiontn/otp-input`
(`src/OTPTextInput.tsx`), a segmented one-time-password input widget.

Strings are modelled as `List Char`.  The JavaScript cell array may contain
holes / `undefined` entries (index assignment past the end extends the array
with holes), so a cell is an `Option (List Char)`: `none` models
`undefined`, `some s` models the string `s`.
-/

/-- JavaScript strings, modelled as lists of characters. -/
abbrev Str := List Char

/-- The character class `\d` of JavaScript regular expressions: `[0-9]`. -/
def jsIsDigit (c : Char) : Bool := '0' ≤ c && c ≤ '9'

/-- The regular expressions the component can select in `regex` (line 119):
`\d*` for numeric mode, `.*` as the fallback, or a caller-supplied custom
pattern, abstracted by its full-match predicate on strings. -/
inductive JsRegex where
  | digitsStar
  | anyStar
  | custom (fm : Str → Bool)

/-- Whether a pattern matches an entire string. -/
def JsRegex.fullMatch : JsRegex → Str → Bool
  | .digitsStar, s => s.all jsIsDigit
  | .anyStar, _ => true
  | .custom fm, s => fm s

/-- JavaScript `RegExp.prototype.test`: an unanchored search, true iff some
contiguous substring (possibly empty) matches the whole pattern. -/
def JsRegex.test (r : JsRegex) (s : Str) : Bool :=
  (s.tails.flatMap List.inits).any r.fullMatch

/-- The component's configuration props that affect its behaviour, with the
source's defaults recorded in `defCfg` below.  `customRegex = none` models
the JavaScript `undefined` default. -/
structure Config where
  defaultValue : Str
  inputCount : Nat
  inputMaxLength : Nat
  useNumbersRegex : Bool
  useLettersRegex : Bool
  useCustomRegex : Bool
  customRegex : Option JsRegex

/-- The default configuration from the destructuring defaults (lines 80-95):
`defaultValue=''`, `inputCount=4`, `inputMaxLength=1`, `useNumbersRegex=true`,
`useLettersRegex` unread (default false per the props), `useCustomRegex=false`,
`customRegex=undefined`. -/
def defCfg : Config :=
  { defaultValue := []
    inputCount := 4
    inputMaxLength := 1
    useNumbersRegex := true
    useLettersRegex := false
    useCustomRegex := false
    customRegex := none }

/-- The memoized `regex` (lines 119-127): `\d*` when `useNumbersRegex`, else
the custom pattern when `useCustomRegex && customRegex` is truthy, else the
fallback `.*`. -/
def regexOf (cfg : Config) : JsRegex :=
  if cfg.useNumbersRegex then JsRegex.digitsStar
  else if cfg.useCustomRegex && cfg.customRegex.isSome then
    cfg.customRegex.getD JsRegex.anyStar
  else JsRegex.anyStar

/-- One cell of the `otpText` array: `none` is a hole / `undefined`. -/
abbrev Cell := Option Str

/-- JavaScript array read `a[i]`: `undefined` out of range or at a hole. -/
def jsGet (a : List Cell) (i : Nat) : Cell := a.getD i none

/-- JavaScript array write `a[i] = v`: in range it replaces the entry, past
the end it extends the array with holes up to index `i`. -/
def jsSet (a : List Cell) (i : Nat) (v : Str) : List Cell :=
  if i < a.length then a.set i (some v)
  else a ++ List.replicate (i - a.length) none ++ [some v]

/-- `newOtp.join('')` (line 187): holes and `undefined` join as `''`. -/
def joinCells (a : List Cell) : Str := (a.map (fun c => c.getD [])).flatten

/-- The component's state: `focusedInput` and `otpText` (lines 129-132),
plus `emitCalls`, the log of values passed to the debounced
`onTextChangeHandler` wrapper (line 187). -/
structure OTPState where
  focusedInput : Nat
  otpText : List Cell
  emitCalls : List Str
deriving DecidableEq

/-- Initial `otpText` (lines 130-132):
`Array.from({length: inputCount}, (_, i) => defaultValue[i] || '')`. -/
def initCells (cfg : Config) : List Cell :=
  (List.range cfg.inputCount).map (fun i =>
    match cfg.defaultValue.get? i with
    | some c => some [c]
    | none => some [])

/-- The state right after mounting: `focusedInput = 0`, cells seeded from
`defaultValue`, no notification emitted yet. -/
def initState (cfg : Config) : OTPState :=
  { focusedInput := 0, otpText := initCells cfg, emitCalls := [] }

/-- Component construction (lines 102-106): throws when both
`useNumbersRegex` and `useCustomRegex` are true, otherwise mounts. -/
def construct (cfg : Config) : Except Str OTPState :=
  if cfg.useNumbersRegex && cfg.useCustomRegex then
    Except.error
      "You cannot set both useNumbersRegex and useCustomRegex to true!".toList
  else Except.ok (initState cfg)

/-- `clear` (lines 137-140). -/
def clear (cfg : Config) (s : OTPState) : OTPState :=
  { s with otpText := List.replicate cfg.inputCount (some []), focusedInput := 0 }

/-- `setValue` (lines 147-150): `setOtpText([...value.slice(0, inputCount)])`
spreads the sliced string into single-character strings (no padding), then
`setFocusedInput(inputCount)`. -/
def setValue (cfg : Config) (s : OTPState) (value : Str) : OTPState :=
  { s with
    otpText := (value.take cfg.inputCount).map (fun c => some [c])
    focusedInput := cfg.inputCount }

/-- `updateOTP` (lines 185-191): passes `newOtp.join('')` to the debounced
handler and stores the new array. -/
def updateOTP (s : OTPState) (newOtp : List Cell) : OTPState :=
  { s with emitCalls := s.emitCalls ++ [joinCells newOtp], otpText := newOtp }

/-- `onTextChange` (lines 200-213): reject when `!regex.test(text)`; else
write the cell, advance focus when the text reaches `inputMaxLength` and the
cell is not the last one, and run `updateOTP`. -/
def onTextChange (cfg : Config) (s : OTPState) (text : Str) (position : Nat) :
    OTPState :=
  if !(regexOf cfg).test text then s
  else
    let newOtp := jsSet s.otpText position text
    let s1 :=
      if text.length == cfg.inputMaxLength && position != cfg.inputCount - 1
      then { s with focusedInput := position + 1 }
      else s
    updateOTP s1 newOtp

/-- The key string React Native reports for the backspace key. -/
def backspaceKey : Str := "Backspace".toList

/-- `onKeyPress` (lines 222-241): on `Backspace`, clear the cell in place
when `otpText[position] !== ''` (true also for `undefined`), else move focus
back when `position > 0`; `setOtpText(otpCopy)` runs in both branches but
only the first branch changed the copy. -/
def onKeyPress (s : OTPState) (key : Str) (position : Nat) : OTPState :=
  if key = backspaceKey then
    if jsGet s.otpText position ≠ some [] then
      { s with otpText := jsSet s.otpText position [] }
    else if position > 0 then { s with focusedInput := position - 1 }
    else s
  else s

/-- The UI events and imperative-handle calls that mutate the state:
a change of a cell's text, a key press on a cell, `setValue`, `clear`,
and a focus event on a cell (the `onFocus` handler, line 286-291, sets
`focusedInput` to the cell's index). -/
inductive Op where
  | textChange (text : Str) (position : Nat)
  | keyPress (key : Str) (position : Nat)
  | setVal (value : Str)
  | clearOp
  | focus (i : Nat)
deriving DecidableEq

/-- One event dispatched to the component. -/
def step (cfg : Config) (s : OTPState) : Op → OTPState
  | .textChange t p => onTextChange cfg s t p
  | .keyPress k p => onKeyPress s k p
  | .setVal v => setValue cfg s v
  | .clearOp => clear cfg s
  | .focus i => { s with focusedInput := i }

/-- A sequence of events. -/
def run (cfg : Config) (s : OTPState) : List Op → OTPState
  | [] => s
  | op :: ops => run cfg (step cfg s op) ops

/-! ### Helper lemmas -/

/-- A pattern matching the empty string is found by the unanchored `test`
in every string, via the empty substring. -/
theorem JsRegex.test_of_fullMatch_nil (r : JsRegex) (s : Str)
    (h : r.fullMatch [] = true) : r.test s = true := by
  unfold JsRegex.test
  rw [List.any_eq_true]
  refine ⟨[], ?_, h⟩
  rw [List.mem_flatMap]
  exact ⟨s, (List.mem_tails s s).2 (List.suffix_refl s),
    (List.mem_inits [] s).2 (List.nil_prefix)⟩

/-- The numeric pattern `\d*` is accepted by `test` on every string, digits
or not, because `\d*` matches the empty substring. -/
theorem digitsStar_test_true (s : Str) : JsRegex.digitsStar.test s = true :=
  JsRegex.test_of_fullMatch_nil _ s rfl

/-- Writing a cell makes reading it back return the written string. -/
theorem jsGet_jsSet_self (a : List Cell) (i : Nat) (v : Str) :
    jsGet (jsSet a i v) i = some v := by
  unfold jsGet jsSet
  by_cases h : i < a.length
  · simp [h, List.getD_eq_getElem?_getD, List.getElem?_set_eq_of_lt _ h]
  · simp only [h, if_false, List.getD_eq_getElem?_getD, List.append_assoc]
    rw [List.getElem?_append_right (by omega)]
    rw [List.getElem?_append_right (by simp)]
    simp

/-- Writing a cell in range keeps the array length. -/
theorem length_jsSet_of_lt (a : List Cell) (i : Nat) (v : Str)
    (h : i < a.length) : (jsSet a i v).length = a.length := by
  simp [jsSet, h]

/-! ### Claims -/

/-- Claim C1 (code bug): the spec requires acceptance iff the full candidate
matches the pattern, and in numeric mode a non-digit entry must leave the
cell unchanged.  The code uses `regex.test` — an unanchored search — with
the pattern `\d*`, which matches the empty substring of any string, so in
numeric mode `test` accepts every string: entering `"a"` into cell 0 of the
default (numeric) configuration stores `"a"`, although `"a"` does not fully
match `\d*`. -/
theorem C1_numeric_mode_accepts_nondigit :
    JsRegex.digitsStar.fullMatch ['a'] = false ∧
    (regexOf defCfg).test ['a'] = true ∧
    (onTextChange defCfg (initState defCfg) ['a'] 0).otpText
      = [some ['a'], some [], some [], some []] ∧
    jsGet (initState defCfg).otpText 0 = some [] := by
  refine ⟨rfl, ?_, by decide, by decide⟩
  exact digitsStar_test_true ['a']

/-- Claim C3, counterexample: `setValue("123")` with `inputCount = 4` does
not yield the four cells `["1","2","3",""]`; the spread of the sliced string
produces an array of only three cells (no padding entry exists). -/
theorem C3_cex :
    (setValue defCfg (initState defCfg) ['1', '2', '3']).otpText
      ≠ [some ['1'], some ['2'], some ['3'], some []] := by
  decide

/-- Claim C3 as amended: `setValue(value)` maps the first
`min(length value, inputCount)` characters of `value` positionally, one
single-character string per cell, discards the extra characters, and sets
the focused index to the sentinel `inputCount`; but the resulting array has
length `min(length value, inputCount)` — cells beyond the value's length do
not exist in the array (they merely render as empty).  Concretely
`setValue("123")` with `inputCount = 4` yields `["1","2","3"]` and
`setValue("123456")` yields `["1","2","3","4"]`. -/
theorem C3_amended (cfg : Config) (s : OTPState) (v : Str) :
    (setValue cfg s v).otpText
      = (v.take cfg.inputCount).map (fun c => some [c]) ∧
    (setValue cfg s v).otpText.length = min v.length cfg.inputCount ∧
    (∀ i : Nat, jsGet (setValue cfg s v).otpText i
      = ((v.take cfg.inputCount).get? i).map (fun c => [c])) ∧
    (setValue cfg s v).focusedInput = cfg.inputCount ∧
    (setValue defCfg (initState defCfg) ['1', '2', '3']).otpText
      = [some ['1'], some ['2'], some ['3']] ∧
    (setValue defCfg (initState defCfg) ['1', '2', '3', '4', '5', '6']).otpText
      = [some ['1'], some ['2'], some ['3'], some ['4']] := by
  refine ⟨rfl, ?_, ?_, rfl, by decide, by decide⟩
  · simp [setValue, Nat.min_comm]
  · intro i
    show (((v.take cfg.inputCount).map (fun c => some [c])).getD i none) = _
    rw [List.getD_eq_getElem?_getD, List.getElem?_map, List.get?_eq_getElem?]
    cases h2 : (v.take cfg.inputCount)[i]? <;> simp [h2]

/-- Claim C7: construction throws exactly when both `useNumbersRegex` and
`useCustomRegex` are true; every other combination of the validation flags
constructs successfully. -/
theorem C7_construction_error_iff (cfg : Config) :
    (∃ e, construct cfg = Except.error e)
      ↔ (cfg.useNumbersRegex = true ∧ cfg.useCustomRegex = true) := by
  unfold construct
  by_cases h : (cfg.useNumbersRegex && cfg.useCustomRegex) = true
  · simp only [h, if_true]
    simp only [Bool.and_eq_true] at h
    exact ⟨fun _ => h, fun _ => ⟨_, rfl⟩⟩
  · simp only [h, if_false]
    simp only [Bool.and_eq_true] at h
    constructor
    · rintro ⟨e, he⟩
      exact absurd he (by simp)
    · intro hc
      exact absurd hc h

/-- Claim C8: from every prior state, `clear()` yields an array of exactly
`inputCount` empty-string cells, focuses index 0, and (being a total
function) never fails. -/
theorem C8_clear (cfg : Config) (s : OTPState) :
    (clear cfg s).otpText = List.replicate cfg.inputCount (some ([] : Str)) ∧
    (clear cfg s).otpText.length = cfg.inputCount ∧
    (∀ i : Nat, i < cfg.inputCount →
      jsGet (clear cfg s).otpText i = some ([] : Str)) ∧
    (clear cfg s).focusedInput = 0 := by
  refine ⟨rfl, by simp [clear], ?_, rfl⟩
  intro i hi
  simp [clear, jsGet, List.getD_eq_getElem?_getD, List.getElem?_replicate, hi]

/-- Claim C8 witness: `clear` after `setValue("12")` in the default
configuration. -/
theorem C8_clear_witness :
    (clear defCfg (setValue defCfg (initState defCfg) ['1', '2'])).otpText
        = List.replicate 4 (some ([] : Str)) ∧
      jsGet (clear defCfg
        (setValue defCfg (initState defCfg) ['1', '2'])).otpText 2
        = some ([] : Str) ∧
      (clear defCfg (setValue defCfg (initState defCfg) ['1', '2'])).focusedInput
        = 0 :=
  ⟨(C8_clear defCfg _).1,
   (C8_clear defCfg _).2.2.1 2 (by decide),
   (C8_clear defCfg _).2.2.2⟩

/-- Claim C5: a backspace on cell `i` holding a non-empty string clears the
cell in place and leaves the focused index unchanged; a backspace on cell
`i` holding the empty string with `i > 0` moves the focused index to
`i - 1` and changes no cell. -/
theorem C5_backspace (s : OTPState) (i : Nat) (v : Str)
    (hv : jsGet s.otpText i = some v) :
    (v ≠ [] →
      (onKeyPress s backspaceKey i).otpText = jsSet s.otpText i [] ∧
      jsGet (onKeyPress s backspaceKey i).otpText i = some ([] : Str) ∧
      (onKeyPress s backspaceKey i).focusedInput = s.focusedInput) ∧
    (v = [] → 0 < i →
      (onKeyPress s backspaceKey i).otpText = s.otpText ∧
      (onKeyPress s backspaceKey i).focusedInput = i - 1) := by
  constructor
  · intro hne
    have hcond : jsGet s.otpText i ≠ some [] := by
      rw [hv]
      intro hc
      exact hne (Option.some.inj hc)
    refine ⟨?_, ?_, ?_⟩ <;> simp [onKeyPress, hcond, jsGet_jsSet_self]
  · intro he hi
    subst he
    constructor <;> simp [onKeyPress, hv, hi]

/-- Claim C5 witness: in the default configuration, backspace on cell 0
holding `"1"` clears it without moving focus, and backspace on the empty
cell 1 moves focus back to 0 without changing the cells. -/
theorem C5_backspace_witness :
    ((onKeyPress (onTextChange defCfg (initState defCfg) ['1'] 0)
        backspaceKey 0).focusedInput
      = (onTextChange defCfg (initState defCfg) ['1'] 0).focusedInput ∧
     jsGet (onKeyPress (onTextChange defCfg (initState defCfg) ['1'] 0)
        backspaceKey 0).otpText 0 = some ([] : Str)) ∧
    ((onKeyPress (initState defCfg) backspaceKey 1).otpText
        = (initState defCfg).otpText ∧
     (onKeyPress (initState defCfg) backspaceKey 1).focusedInput = 1 - 1) :=
  ⟨⟨((C5_backspace (onTextChange defCfg (initState defCfg) ['1'] 0) 0 ['1']
        (by decide)).1 (by decide)).2.2,
    ((C5_backspace (onTextChange defCfg (initState defCfg) ['1'] 0) 0 ['1']
        (by decide)).1 (by decide)).2.1⟩,
   (C5_backspace (initState defCfg) 1 [] (by decide)).2 rfl (by decide)⟩

/-- Claim C6: an accepted entry into cell `i` whose text reaches
`inputMaxLength` moves the focused index to `i + 1` unless `i` is the last
index `inputCount - 1`, in which case the focused index is unchanged. -/
theorem C6_focus_advance (cfg : Config) (s : OTPState) (t : Str) (i : Nat)
    (hacc : (regexOf cfg).test t = true) (hlen : t.length = cfg.inputMaxLength)
    (hi : i < cfg.inputCount) :
    (onTextChange cfg s t i).focusedInput
      = if i = cfg.inputCount - 1 then s.focusedInput else i + 1 := by
  by_cases hl : i = cfg.inputCount - 1
  · simp [onTextChange, updateOTP, hacc, hlen, hl]
  · simp [onTextChange, updateOTP, hacc, hlen, hl]

/-- Claim C6 witness: with the default configuration (`inputCount = 4`,
`inputMaxLength = 1`), an accepted digit in cell 0 advances focus to 1,
and in the last cell 3 focus stays where it was. -/
theorem C6_focus_advance_witness :
    ((onTextChange defCfg (initState defCfg) ['7'] 0).focusedInput
      = if 0 = defCfg.inputCount - 1
        then (initState defCfg).focusedInput else 0 + 1) ∧
    ((onTextChange defCfg (initState defCfg) ['7'] 3).focusedInput
      = if 3 = defCfg.inputCount - 1
        then (initState defCfg).focusedInput else 3 + 1) :=
  ⟨C6_focus_advance defCfg (initState defCfg) ['7'] 0 (by decide) rfl
      (by decide),
   C6_focus_advance defCfg (initState defCfg) ['7'] 3 (by decide) rfl
      (by decide)⟩

/-- Claim C4, counterexample: `clear()` mutates the cell array (cell 0 held
`"1"`) yet the debounced change-notification log is left untouched — the
source's `clear` calls `setOtpText` directly and never goes through
`updateOTP`. -/
theorem C4_cex :
    (clear defCfg (onTextChange defCfg (initState defCfg) ['1'] 0)).otpText
        ≠ (onTextChange defCfg (initState defCfg) ['1'] 0).otpText ∧
    (clear defCfg (onTextChange defCfg (initState defCfg) ['1'] 0)).emitCalls
        = (onTextChange defCfg (initState defCfg) ['1'] 0).emitCalls := by
  decide

/-- Claim C4 as amended: only an accepted keystroke (`onTextChange`) invokes
the debounced change-notification path, appending the assembled code of the
new array; key presses (including the backspace that clears a cell),
`setValue`, and `clear` mutate the cell array without invoking it. -/
theorem C4_amended (cfg : Config) (s : OTPState) (t : Str) (p : Nat)
    (k : Str) (i : Nat) (v : Str)
    (hacc : (regexOf cfg).test t = true) :
    (onTextChange cfg s t p).emitCalls
        = s.emitCalls ++ [joinCells (jsSet s.otpText p t)] ∧
    (onTextChange cfg s t p).otpText = jsSet s.otpText p t ∧
    (onKeyPress s k i).emitCalls = s.emitCalls ∧
    (setValue cfg s v).emitCalls = s.emitCalls ∧
    (clear cfg s).emitCalls = s.emitCalls := by
  refine ⟨?_, ?_, ?_, rfl, rfl⟩
  · simp [onTextChange, updateOTP, hacc, apply_ite OTPState.emitCalls]
  · simp [onTextChange, updateOTP, hacc]
  · simp [onKeyPress, apply_ite OTPState.emitCalls]

/-- Claim C4 witness: concrete instance of the amended claim in the default
configuration. -/
theorem C4_amended_witness :
    (onTextChange defCfg (initState defCfg) ['1'] 0).emitCalls
        = (initState defCfg).emitCalls
          ++ [joinCells (jsSet (initState defCfg).otpText 0 ['1'])] ∧
    (onTextChange defCfg (initState defCfg) ['1'] 0).otpText
        = jsSet (initState defCfg).otpText 0 ['1'] ∧
    (onKeyPress (initState defCfg) backspaceKey 0).emitCalls
        = (initState defCfg).emitCalls ∧
    (setValue defCfg (initState defCfg) ['9']).emitCalls
        = (initState defCfg).emitCalls ∧
    (clear defCfg (initState defCfg)).emitCalls
        = (initState defCfg).emitCalls :=
  C4_amended defCfg (initState defCfg) ['1'] 0 backspaceKey 0 ['9'] (by decide)

/-- Events whose parameters respect the rendered configuration: cell events
carry a position of one of the `inputCount` rendered cells, and `setValue`
receives at least `inputCount` characters. -/
def opLenSafe (cfg : Config) : Op → Bool
  | .textChange _ p => decide (p < cfg.inputCount)
  | .keyPress _ p => decide (p < cfg.inputCount)
  | .setVal v => decide (cfg.inputCount ≤ v.length)
  | .clearOp => true
  | .focus _ => true

/-- The freshly mounted cell array has one entry per cell. -/
theorem length_initCells (cfg : Config) :
    (initCells cfg).length = cfg.inputCount := by
  simp [initCells]

/-- One event keeps the cell-array length at `inputCount`, provided the
event is length-safe. -/
theorem length_step (cfg : Config) (s : OTPState) (op : Op)
    (hs : s.otpText.length = cfg.inputCount) (hop : opLenSafe cfg op = true) :
    (step cfg s op).otpText.length = cfg.inputCount := by
  cases op with
  | textChange t p =>
    simp only [opLenSafe, decide_eq_true_eq] at hop
    cases htest : (regexOf cfg).test t with
    | false => simpa [step, onTextChange, htest] using hs
    | true =>
      simp [step, onTextChange, htest, updateOTP,
        length_jsSet_of_lt _ _ _ (hs ▸ hop), hs]
  | keyPress k p =>
    simp only [opLenSafe, decide_eq_true_eq] at hop
    by_cases hk : k = backspaceKey
    · by_cases hc : jsGet s.otpText p ≠ some []
      · simp [step, onKeyPress, hk, hc,
          length_jsSet_of_lt _ _ _ (hs ▸ hop), hs]
      · by_cases hp : p > 0 <;> simp [step, onKeyPress, hk, hc, hp, hs]
    · simpa [step, onKeyPress, hk] using hs
  | setVal v =>
    simp only [opLenSafe, decide_eq_true_eq] at hop
    simp [step, setValue]
    omega
  | clearOp => simp [step, clear]
  | focus i => simpa [step] using hs

/-- Under length-safe events, a whole event sequence keeps the cell-array
length at `inputCount`. -/
theorem length_run (cfg : Config) (s : OTPState) (ops : List Op)
    (hs : s.otpText.length = cfg.inputCount)
    (hops : ∀ op ∈ ops, opLenSafe cfg op = true) :
    (run cfg s ops).otpText.length = cfg.inputCount := by
  induction ops generalizing s with
  | nil => exact hs
  | cons op ops ih =>
    exact ih (step cfg s op)
      (length_step cfg s op hs (hops op (List.mem_cons_self _ _)))
      (fun o ho => hops o (List.mem_cons_of_mem _ ho))

/-- Claim C2, counterexample: `setValue("123")` with `inputCount = 4`
produces a cell array of length 3, so the length invariant fails as
stated. -/
theorem C2_cex :
    (run defCfg (initState defCfg) [Op.setVal ['1', '2', '3']]).otpText.length
      ≠ defCfg.inputCount := by
  decide

/-- Claim C2 as amended: starting from mount, the cell array has length
exactly `inputCount` after every sequence of cell events and imperative
calls, provided every `setValue` in the sequence supplies at least
`inputCount` characters (positions come from the rendered cells); a
`setValue` with a shorter value shrinks the array to the value's length. -/
theorem C2_amended (cfg : Config) (ops : List Op)
    (hops : ∀ op ∈ ops, opLenSafe cfg op = true) :
    (run cfg (initState cfg) ops).otpText.length = cfg.inputCount :=
  length_run cfg (initState cfg) ops (length_initCells cfg) hops

/-- Claim C2 witness: a concrete event sequence — keystroke, backspace,
full-length `setValue`, `clear`, tap-focus — keeps the default
configuration's array at length 4. -/
theorem C2_amended_witness :
    (run defCfg (initState defCfg)
        [Op.textChange ['5'] 1, Op.keyPress backspaceKey 1,
         Op.setVal ['1', '2', '3', '4'], Op.clearOp,
         Op.focus 2]).otpText.length = defCfg.inputCount :=
  C2_amended defCfg
    [Op.textChange ['5'] 1, Op.keyPress backspaceKey 1,
     Op.setVal ['1', '2', '3', '4'], Op.clearOp, Op.focus 2] (by decide)

/-- The same configuration with `useLettersRegex` replaced. -/
def withLetters (cfg : Config) (b : Bool) : Config :=
  { cfg with useLettersRegex := b }

/-- Claim C10: the declared `useLettersRegex` prop is never read — the
selected pattern, construction (including its error case), and every event
sequence's resulting state (cells, focus, and emitted notifications) are
identical for any two values of the flag. -/
theorem C10_letters_unread (cfg : Config) (b : Bool) (s : OTPState)
    (ops : List Op) :
    regexOf (withLetters cfg b) = regexOf cfg ∧
    construct (withLetters cfg b) = construct cfg ∧
    run (withLetters cfg b) s ops = run cfg s ops := by
  obtain ⟨dv, ic, iml, unr, ulr, ucr, cr⟩ := cfg
  refine ⟨rfl, rfl, ?_⟩
  induction ops generalizing s with
  | nil => rfl
  | cons op ops ih =>
    have hstep :
        step (withLetters ⟨dv, ic, iml, unr, ulr, ucr, cr⟩ b) s op
          = step ⟨dv, ic, iml, unr, ulr, ucr, cr⟩ s op := by
      cases op <;> rfl
    show run _ (step _ s op) ops = run _ (step _ s op) ops
    rw [hstep]
    exact ih _

/-- Modelled from the spec: `lodash.debounce(handler, wait)` (line 174) is a
third-party dependency, not in this repository's sources.  Per the spec's
"fixed ~125ms quiet window ... a new keystroke before the window elapses
replaces the pending emission", a trailing-edge debounce over a
time-ordered list of calls invokes the wrapped handler for exactly those
calls that are followed by a quiet gap of at least `wait`, always including
the final call. -/
def debounceFire (wait : Nat) : List (Nat × Str) → List Str
  | [] => []
  | [(_, v)] => [v]
  | (t1, v1) :: (t2, v2) :: rest =>
    if t2 - t1 < wait then debounceFire wait ((t2, v2) :: rest)
    else v1 :: debounceFire wait ((t2, v2) :: rest)

/-- The time-stamped calls the component hands to the debounced handler
while a list of time-stamped events is dispatched: each step contributes
the entries it appended to `emitCalls`, stamped with the event's time. -/
def timedEmits (cfg : Config) : OTPState → List (Nat × Op) → List (Nat × Str)
  | _, [] => []
  | s, (t, op) :: rest =>
    ((step cfg s op).emitCalls.drop s.emitCalls.length).map (fun v => (t, v))
      ++ timedEmits cfg (step cfg s op) rest

/-- An event that is an accepted keystroke: a text change whose text passes
the active pattern's `test`. -/
def isAcceptedTC (cfg : Config) : Op → Bool
  | .textChange t _ => (regexOf cfg).test t
  | _ => false

/-- Each event of the burst arrives before the quiet window of the previous
one has elapsed. -/
def burstGapsOk (wait : Nat) : List (Nat × Op) → Bool
  | [] => true
  | [_] => true
  | (t1, _) :: (t2, op2) :: rest =>
    decide (t2 - t1 < wait) && burstGapsOk wait ((t2, op2) :: rest)

/-- An accepted keystroke appends exactly one call — the assembled code of
the new array — to the debounced-handler log. -/
theorem emit_of_accepted (cfg : Config) (s : OTPState) (op : Op)
    (h : isAcceptedTC cfg op = true) :
    (step cfg s op).emitCalls
      = s.emitCalls ++ [joinCells ((step cfg s op).otpText)] := by
  cases op with
  | textChange t p =>
    simp only [isAcceptedTC] at h
    simp [step, onTextChange, h, updateOTP, apply_ite OTPState.emitCalls]
  | keyPress k p => exact absurd h (by simp [isAcceptedTC])
  | setVal v => exact absurd h (by simp [isAcceptedTC])
  | clearOp => exact absurd h (by simp [isAcceptedTC])
  | focus i => exact absurd h (by simp [isAcceptedTC])

/-- The timed call log of a burst headed by an accepted keystroke starts
with that keystroke's assembled code at the keystroke's time. -/
theorem timedEmits_cons_accepted (cfg : Config) (s : OTPState) (t : Nat)
    (op : Op) (rest : List (Nat × Op)) (h : isAcceptedTC cfg op = true) :
    timedEmits cfg s ((t, op) :: rest)
      = (t, joinCells ((step cfg s op).otpText))
          :: timedEmits cfg (step cfg s op) rest := by
  rw [timedEmits, emit_of_accepted cfg s op h,
    List.drop_left s.emitCalls [joinCells ((step cfg s op).otpText)]]
  rfl

/-- Claim C9: a non-empty burst of accepted keystrokes, each arriving
before the 125ms quiet window of the previous one elapses, makes the
debounced handler fire exactly once, carrying the assembled code after the
final keystroke. -/
theorem C9_burst (cfg : Config) (s : OTPState) (evs : List (Nat × Op))
    (hne : evs ≠ [])
    (hacc : ∀ e ∈ evs, isAcceptedTC cfg e.2 = true)
    (hgaps : burstGapsOk 125 evs = true) :
    debounceFire 125 (timedEmits cfg s evs)
      = [joinCells ((run cfg s (evs.map Prod.snd)).otpText)] := by
  induction evs generalizing s with
  | nil => exact absurd rfl hne
  | cons e tl ih =>
    obtain ⟨t1, op1⟩ := e
    have h1 : isAcceptedTC cfg op1 = true := hacc _ (List.mem_cons_self _ _)
    cases tl with
    | nil =>
      rw [timedEmits_cons_accepted cfg s t1 op1 [] h1]
      rfl
    | cons e2 rest =>
      obtain ⟨t2, op2⟩ := e2
      have h2 : isAcceptedTC cfg op2 = true := hacc (t2, op2) (by simp)
      have hgap : t2 - t1 < 125 := by
        have := hgaps
        simp only [burstGapsOk, Bool.and_eq_true, decide_eq_true_eq] at this
        exact this.1
      have hgtl : burstGapsOk 125 ((t2, op2) :: rest) = true := by
        have := hgaps
        simp only [burstGapsOk, Bool.and_eq_true, decide_eq_true_eq] at this
        exact this.2
      have hin := ih (step cfg s op1) (List.cons_ne_nil _ _)
        (fun e he => hacc e (List.mem_cons_of_mem _ he)) hgtl
      rw [timedEmits_cons_accepted cfg s t1 op1 _ h1,
        timedEmits_cons_accepted cfg (step cfg s op1) t2 op2 _ h2]
      rw [timedEmits_cons_accepted cfg (step cfg s op1) t2 op2 _ h2] at hin
      rw [debounceFire, if_pos hgap]
      exact hin
/-- Claim C9 witness: two accepted digits 100ms apart produce exactly one
handler invocation, carrying `"12"`, the assembled code after the second
keystroke. -/
theorem C9_burst_witness :
    debounceFire 125 (timedEmits defCfg (initState defCfg)
        [(0, Op.textChange ['1'] 0), (100, Op.textChange ['2'] 1)])
      = [joinCells ((run defCfg (initState defCfg)
          ([(0, Op.textChange ['1'] 0),
            (100, Op.textChange ['2'] 1)].map Prod.snd)).otpText)] :=
  C9_burst defCfg (initState defCfg)
    [(0, Op.textChange ['1'] 0), (100, Op.textChange ['2'] 1)]
    (by decide) (by decide) (by decide)
